import Mathlib

/-!
Shallow embedding of the Connact.ai repository's core components:

* `src/openai_compat.py` — the static parameter-compatibility resolver;
* `src/services/llm_service.py` — the JSON-extraction helpers and the
  learned-unsupported-parameter fallback loop;
* `src/services/auth_service.py` — the SQLite-backed auth/invite service.

Conventions used throughout:
* Python strings are Lean `String`s.  The Python string methods
  (`strip`, `lower`, `startswith`, `in`) are modelled over `String.data`
  (`pyStrip`, `pyLower`, `pyStartsWith`, `pyContains`) so that concrete
  instances evaluate inside the kernel.
* Python `None` is `Option.none`; Python truthiness of an optional string
  is captured where the source relies on it (`none` and `""` are falsy).
* Timestamps (ISO datetime strings in the source) are modelled as `Int`
  instants compared with `<`, which is what every comparison in the source
  reduces to after its timezone normalization.  The email-verification TTL
  is added in the same abstract unit.
* External primitives (`hashlib.sha256`, `werkzeug.check_password_hash`,
  `secrets.token_urlsafe`, `uuid.uuid4`, `json.loads`) are modelled as
  explicit function parameters; the freshness/format facts the source
  obtains from them appear as hypotheses of the theorems.
* Each public auth operation runs inside `with sqlite3.connect(...)`,
  which commits on normal exit and rolls back when an exception escapes;
  operations are therefore modelled as returning the *persisted* state:
  an `Except.error` outcome leaves the database unchanged.  Where the
  distinction between in-transaction writes and persisted writes matters
  (`authenticate_password`), the transaction body is a separate
  definition and the persisted operation wraps it with the rollback.
-/

deriving instance DecidableEq for Except

namespace Connact

/-! ### Python string primitives -/

/-- Python `str.strip()`: drop whitespace from both ends. -/
def pyStrip (s : String) : String :=
  ⟨(s.data.dropWhile Char.isWhitespace).rdropWhile Char.isWhitespace⟩

/-- Python `str.lower()`. -/
def pyLower (s : String) : String := ⟨s.data.map Char.toLower⟩

/-- Python `str.startswith(p)`. -/
def pyStartsWith (s p : String) : Bool := p.data.isPrefixOf s.data

def containsSubAux (t : List Char) : List Char → Bool
  | [] => t.isPrefixOf []
  | c :: rest => t.isPrefixOf (c :: rest) || containsSubAux t rest

/-- Python `t in s` (substring containment). -/
def pyContains (s t : String) : Bool := containsSubAux t.data s.data

theorem pyStrip_pyStrip (s : String) : pyStrip (pyStrip s) = pyStrip s := by
  unfold pyStrip
  apply congrArg String.mk
  have h1 : List.dropWhile Char.isWhitespace
      ((s.data.dropWhile Char.isWhitespace).rdropWhile Char.isWhitespace) =
      (s.data.dropWhile Char.isWhitespace).rdropWhile Char.isWhitespace := by
    rw [List.dropWhile_eq_self_iff]
    intro hl
    have hpre : (s.data.dropWhile Char.isWhitespace).rdropWhile Char.isWhitespace <+:
        s.data.dropWhile Char.isWhitespace := List.rdropWhile_prefix _ _
    have hlen : 0 < (s.data.dropWhile Char.isWhitespace).length :=
      lt_of_lt_of_le hl hpre.length_le
    have := List.dropWhile_get_zero_not Char.isWhitespace s.data hlen
    simpa [List.get_eq_getElem, hpre.getElem hl] using this
  rw [h1, List.rdropWhile_idempotent]

theorem head?_eq_of_isPrefixOf {l₁ l₂ l : List Char}
    (h1 : l₁.isPrefixOf l) (h2 : l₂.isPrefixOf l)
    (hn1 : l₁ ≠ []) (hn2 : l₂ ≠ []) : l₁.head? = l₂.head? := by
  match l₁, l₂, l with
  | [], _, _ => exact absurd rfl hn1
  | _ :: _, [], _ => exact absurd rfl hn2
  | a :: as, b :: bs, [] => simp [List.isPrefixOf] at h1
  | a :: as, b :: bs, c :: cs =>
    simp only [List.isPrefixOf, Bool.and_eq_true, beq_iff_eq] at h1 h2
    simp [h1.1, h2.1]

/-- Two `pyStartsWith` facts about the same string force equal prefix heads. -/
theorem pyStartsWith_head?_eq {s p q : String}
    (hp : pyStartsWith s p = true) (hq : pyStartsWith s q = true)
    (hn1 : p.data ≠ []) (hn2 : q.data ≠ []) : p.data.head? = q.data.head? :=
  head?_eq_of_isPrefixOf hp hq hn1 hn2

/-! ## `src/openai_compat.py` -/

def UNSUPPORTED_SAMPLING_PARAMS : Finset String :=
  {"temperature", "top_p", "logprobs"}

def UNSUPPORTED_PENALTY_PARAMS : Finset String :=
  {"frequency_penalty", "presence_penalty"}

/-- `_is_gpt5_base_model`: starts with `gpt-5` but not `gpt-5.1`/`gpt-5.2`
(after `strip()`). -/
def is_gpt5_base_model (model : String) : Bool :=
  let model := pyStrip model
  if !(pyStartsWith model "gpt-5") then false
  else !(pyStartsWith model "gpt-5.1" || pyStartsWith model "gpt-5.2")

/-- `_is_gpt51_or_gpt52_restricted_variant`: a `gpt-5.1`/`gpt-5.2` name
containing `thinking` or `pro` (lower-cased). -/
def is_gpt51_or_gpt52_restricted_variant (model : String) : Bool :=
  let model := pyStrip model
  if !(pyStartsWith model "gpt-5.1" || pyStartsWith model "gpt-5.2") then false
  else
    let lowered := pyLower model
    pyContains lowered "thinking" || pyContains lowered "pro"

/-- `_is_o_series_model`: starts with `o1`, `o3` or `o4` (after `strip()`). -/
def is_o_series_model (model : String) : Bool :=
  let model := pyStrip model
  pyStartsWith model "o1" || pyStartsWith model "o3" || pyStartsWith model "o4"

/-- Python `reasoning_effort is not None and reasoning_effort != "none"`. -/
def effort_is_non_none (reasoningEffort : Option String) : Bool :=
  match reasoningEffort with
  | none => false
  | some e => e != "none"

/-- `unsupported_openai_chat_params`: the set of Chat Completions params to
omit for a given model.  The nested structure mirrors the early returns of
the source, including the fall-through from the `gpt-5.1`/`gpt-5.2` block to
the o-series check. -/
def unsupported_openai_chat_params (model : String)
    (reasoningEffort : Option String) : Finset String :=
  let m := pyStrip model
  if m = "" then ∅
  else if is_gpt5_base_model m then UNSUPPORTED_SAMPLING_PARAMS
  else if pyStartsWith m "gpt-5.1" || pyStartsWith m "gpt-5.2" then
    if is_gpt51_or_gpt52_restricted_variant m then UNSUPPORTED_SAMPLING_PARAMS
    else if effort_is_non_none reasoningEffort then UNSUPPORTED_SAMPLING_PARAMS
    else if is_o_series_model m then UNSUPPORTED_SAMPLING_PARAMS ∪ UNSUPPORTED_PENALTY_PARAMS
    else ∅
  else if is_o_series_model m then UNSUPPORTED_SAMPLING_PARAMS ∪ UNSUPPORTED_PENALTY_PARAMS
  else ∅

theorem is_gpt5_base_model_strip (model : String) :
    is_gpt5_base_model (pyStrip model) = is_gpt5_base_model model := by
  simp [is_gpt5_base_model, pyStrip_pyStrip]

theorem is_o_series_model_strip (model : String) :
    is_o_series_model (pyStrip model) = is_o_series_model model := by
  simp [is_o_series_model, pyStrip_pyStrip]

/-- C4: for every model identifier and reasoning-effort value, the
compatibility resolver returns exactly `{temperature, top_p, logprobs}` for
base GPT-5 identifiers (starting with `gpt-5` but with neither dotted
sub-family prefix `gpt-5.1`/`gpt-5.2`), exactly that set united with
`{frequency_penalty, presence_penalty}` for reasoning-family identifiers
(`o1`/`o3`/`o4` prefixes), and the empty set for identifiers matching none
of the listed families. -/
theorem unsupported_params_family_classification
    (model : String) (reasoningEffort : Option String) :
    (is_gpt5_base_model model = true →
      unsupported_openai_chat_params model reasoningEffort =
        UNSUPPORTED_SAMPLING_PARAMS) ∧
    (is_o_series_model model = true →
      unsupported_openai_chat_params model reasoningEffort =
        UNSUPPORTED_SAMPLING_PARAMS ∪ UNSUPPORTED_PENALTY_PARAMS) ∧
    (is_gpt5_base_model model = false →
      pyStartsWith (pyStrip model) "gpt-5.1" = false →
      pyStartsWith (pyStrip model) "gpt-5.2" = false →
      is_o_series_model model = false →
      unsupported_openai_chat_params model reasoningEffort = ∅) := by
  refine ⟨fun h => ?_, fun h => ?_, fun hb h51 h52 ho => ?_⟩
  · have hm : is_gpt5_base_model (pyStrip model) = true := by
      rwa [is_gpt5_base_model_strip]
    have hne : ¬ pyStrip model = "" := by
      intro he
      rw [he] at hm
      exact absurd hm (by decide)
    simp only [unsupported_openai_chat_params]
    rw [if_neg hne, if_pos hm]
  · have hm : is_o_series_model (pyStrip model) = true := by
      rwa [is_o_series_model_strip]
    have hne : ¬ pyStrip model = "" := by
      intro he
      rw [he] at hm
      exact absurd hm (by decide)
    have hdis : pyStartsWith (pyStrip model) "o1" = true ∨
        pyStartsWith (pyStrip model) "o3" = true ∨
        pyStartsWith (pyStrip model) "o4" = true := by
      have := hm
      unfold is_o_series_model at this
      rw [pyStrip_pyStrip] at this
      simpa [Bool.or_eq_true, or_assoc] using this
    have hng : ∀ g : String, g.data.head? = some 'g' → g.data ≠ [] →
        pyStartsWith (pyStrip model) g = false := by
      intro g hg hgd
      by_contra hcon
      rw [Bool.not_eq_false] at hcon
      rcases hdis with hp | hp | hp <;>
        exact absurd ((pyStartsWith_head?_eq hp hcon (by decide) hgd).trans hg) (by decide)
    have hbase : is_gpt5_base_model (pyStrip model) = false := by
      unfold is_gpt5_base_model
      rw [pyStrip_pyStrip]
      simp [hng "gpt-5" (by decide) (by decide)]
    have h51 := hng "gpt-5.1" (by decide) (by decide)
    have h52 := hng "gpt-5.2" (by decide) (by decide)
    simp only [unsupported_openai_chat_params]
    rw [if_neg hne]
    simp [hbase, h51, h52, hm]
  · by_cases hne : pyStrip model = ""
    · simp only [unsupported_openai_chat_params]
      rw [if_pos hne]
    · have hbase : is_gpt5_base_model (pyStrip model) = false := by
        rwa [is_gpt5_base_model_strip]
      have hos : is_o_series_model (pyStrip model) = false := by
        rwa [is_o_series_model_strip]
      simp only [unsupported_openai_chat_params]
      rw [if_neg hne]
      simp [hbase, h51, h52, hos]

/-- Witness for C4 at the concrete identifiers `gpt-5-mini`, `o1-mini`
and `gpt-4o`. -/
theorem unsupported_params_family_classification_witness :
    unsupported_openai_chat_params "gpt-5-mini" none =
      UNSUPPORTED_SAMPLING_PARAMS ∧
    unsupported_openai_chat_params "o1-mini" none =
      UNSUPPORTED_SAMPLING_PARAMS ∪ UNSUPPORTED_PENALTY_PARAMS ∧
    unsupported_openai_chat_params "gpt-4o" none = ∅ :=
  ⟨(unsupported_params_family_classification "gpt-5-mini" none).1 (by decide),
   (unsupported_params_family_classification "o1-mini" none).2.1 (by decide),
   (unsupported_params_family_classification "gpt-4o" none).2.2
     (by decide) (by decide) (by decide) (by decide)⟩

/-! ## `src/services/llm_service.py` — JSON extraction

`json.loads` is an external library call; it is modelled by an abstract
validity oracle `jsonOk : String → Bool` (`jsonOk s = true` iff
`json.loads(s)` succeeds).  The fenced-block regex
``` ```(?:json)?\s*\n?([\s\S]*?)\n?``` ``` is modelled by an equivalent
scanner: each capture is the text between a fence, an optional `json` tag
and the next fence; since the source immediately `strip()`s every capture,
the `\s*`/`\n?` trimming of the regex is absorbed by that strip. -/

def backtickChar : Char := Char.ofNat 96

def openBraceChar : Char := Char.ofNat 123

def closeBraceChar : Char := Char.ofNat 125

/-- Split a character list at the first occurrence of a triple-backtick
fence, returning the text before it and the text after it. -/
def splitAtFence : List Char → Option (List Char × List Char)
  | [] => none
  | c :: rest =>
    if c = backtickChar ∧
        rest.take 2 = [backtickChar, backtickChar] then
      some ([], rest.drop 2)
    else
      (splitAtFence rest).map fun p => (c :: p.1, p.2)

def fencedCapturesAux (fuel : Nat) (cs : List Char) : List String :=
  match fuel with
  | 0 => []
  | fuel + 1 =>
    match splitAtFence cs with
    | none => []
    | some (_, afterOpen) =>
      let afterTag :=
        if ['j', 's', 'o', 'n'].isPrefixOf afterOpen then afterOpen.drop 4
        else afterOpen
      let afterWs := afterTag.dropWhile Char.isWhitespace
      match splitAtFence afterWs with
      | none => []
      | some (content, afterClose) =>
        String.mk content :: fencedCapturesAux fuel afterClose

/-- All captures of the fenced-code-block pattern, in order (`re.findall`). -/
def fencedCaptures (text : String) : List String :=
  fencedCapturesAux text.data.length text.data

/-- Relative indices (within the slice starting at the first `\x7b`) at which
the running brace depth returns to zero, in scan order. -/
def braceEnds : List Char → Int → Nat → List Nat
  | [], _, _ => []
  | c :: rest, depth, i =>
    if c = openBraceChar then braceEnds rest (depth + 1) (i + 1)
    else if c = closeBraceChar then
      if depth - 1 = 0 then i :: braceEnds rest (depth - 1) (i + 1)
      else braceEnds rest (depth - 1) (i + 1)
    else braceEnds rest depth (i + 1)

/-- The balanced brace-delimited candidate substrings tried by the source's
brace scan: each starts at the first `\x7b` of the text and ends where the
depth counter returns to zero. -/
def braceCandidates (text : String) : List String :=
  match text.data.findIdx? (· = openBraceChar) with
  | none => []
  | some i =>
    let tail := text.data.drop i
    (braceEnds tail 0 0).map fun j => String.mk (tail.take (j + 1))

/-- `_extract_json_from_text`: first fenced block whose stripped contents
parse, then first balanced brace-delimited substring that parses, else the
text itself. -/
def extract_json_from_text (jsonOk : String → Bool) (text : String) : String :=
  match ((fencedCaptures text).map pyStrip).find? jsonOk with
  | some candidate => candidate
  | none =>
    match (braceCandidates text).find? jsonOk with
    | some candidate => candidate
    | none => text

/-- `_ensure_strict_json`.  `Except.error ()` models the `JSONDecodeError`
raised by the final `json.loads(extracted)` (wrapped into `LLMServiceError`
by the caller). -/
def ensure_strict_json (jsonOk : String → Bool) (text : String) :
    Except Unit String :=
  let cleaned := pyStrip text
  if cleaned = "" then .ok cleaned
  else if jsonOk cleaned then .ok cleaned
  else
    let extracted := extract_json_from_text jsonOk cleaned
    if jsonOk extracted then .ok extracted else .error ()

/-- A concrete JSON-validity oracle for closed evaluations: accepts exactly
the literal `0` (which `json.loads` accepts); in particular it rejects the
empty string (which `json.loads` rejects). -/
def jsonOkSample : String → Bool := fun s => s = "0"

/-- C9, counterexample: on empty provider content the source returns the
empty string successfully instead of signalling failure, and the returned
text is not valid JSON. -/
theorem ensure_strict_json_empty_counterexample :
    ensure_strict_json jsonOkSample "" = .ok "" ∧ jsonOkSample "" = false := by
  constructor
  · rfl
  · decide

/-- C9 (amended): for non-empty (post-strip) provider content, a successful
result always parses as JSON, the raw stripped text is used when it parses,
and otherwise the strategies are tried in order — first fenced code block
whose contents parse, then first balanced brace-delimited substring that
parses — with failure signalled when all strategies fail.  (The empty-content
case, contrary to the original claim, returns the empty string without
signalling failure.) -/
theorem ensure_strict_json_spec (jsonOk : String → Bool) (text : String)
    (h : pyStrip text ≠ "") :
    (∀ r, ensure_strict_json jsonOk text = .ok r → jsonOk r = true) ∧
    (jsonOk (pyStrip text) = true →
      ensure_strict_json jsonOk text = .ok (pyStrip text)) ∧
    (jsonOk (pyStrip text) = false →
      ensure_strict_json jsonOk text =
        match ((fencedCaptures (pyStrip text)).map pyStrip).find? jsonOk with
        | some c => .ok c
        | none =>
          match (braceCandidates (pyStrip text)).find? jsonOk with
          | some c => .ok c
          | none => .error ()) := by
  refine ⟨?_, ?_, ?_⟩
  · intro r hr
    unfold ensure_strict_json at hr
    rw [if_neg h] at hr
    by_cases hc : jsonOk (pyStrip text) = true
    · rw [if_pos hc] at hr
      cases hr
      exact hc
    · rw [if_neg hc] at hr
      by_cases he : jsonOk (extract_json_from_text jsonOk (pyStrip text)) = true
      · rw [if_pos he] at hr
        cases hr
        exact he
      · rw [if_neg he] at hr
        cases hr
  · intro hc
    unfold ensure_strict_json
    rw [if_neg h, if_pos hc]
  · intro hc
    unfold ensure_strict_json
    rw [if_neg h, if_neg (by simp [hc])]
    unfold extract_json_from_text
    cases hf : ((fencedCaptures (pyStrip text)).map pyStrip).find? jsonOk with
    | some c =>
      have := List.find?_some hf
      simp [this]
    | none =>
      cases hb : (braceCandidates (pyStrip text)).find? jsonOk with
      | some c =>
        have := List.find?_some hb
        simp [this]
      | none =>
        simp [hc]

/-- Witness for C9 at the content `0`, which the sample oracle accepts. -/
theorem ensure_strict_json_spec_witness :
    ensure_strict_json jsonOkSample "0" = .ok "0" := by
  have h := (ensure_strict_json_spec jsonOkSample "0" (by decide)).2.1 (by decide)
  rwa [show pyStrip "0" = "0" from by decide] at h

/-! ## `src/services/llm_service.py` — learned-unsupported-parameter fallback

A chat-completions request (`create_kwargs`) is an association list of
parameter name ↦ value (values play no role in the claims; `messages` is one
entry like any other).  The module-global
`_OPENAI_UNSUPPORTED_PARAMS_BY_MODEL` cache is an association list of model
identifier ↦ learned parameter list.  A provider call is modelled by its
outcome sequence `provider : Nat → ProviderOutcome`, indexed by call number;
`err p` stands for an exception `exc` with
`_get_openai_unsupported_param(exc) = p`. -/

abbrev OAIKwargs := List (String × String)

abbrev ParamCache := List (String × List String)

def kwargsHas (req : OAIKwargs) (k : String) : Bool :=
  req.any fun kv => kv.1 = k

/-- `attempt_kwargs.pop(param, None)`. -/
def kwargsPop (req : OAIKwargs) (k : String) : OAIKwargs :=
  req.filter fun kv => kv.1 != k

/-- `str(attempt_kwargs.get("model") or "")`. -/
def kwargsModel (req : OAIKwargs) : String :=
  ((req.find? fun kv => kv.1 = "model").map (·.2)).getD ""

def cacheGet (cache : ParamCache) (m : String) : Option (List String) :=
  (cache.find? fun e => e.1 = m).map (·.2)

/-- `_OPENAI_UNSUPPORTED_PARAMS_BY_MODEL.setdefault(model, set()).add(param)`. -/
def cacheAdd (cache : ParamCache) (m p : String) : ParamCache :=
  if cache.any fun e => e.1 = m then
    cache.map fun e =>
      if e.1 = m then (e.1, if e.2.contains p then e.2 else e.2 ++ [p]) else e
  else cache ++ [(m, [p])]

inductive ProviderOutcome where
  | ok (v : Nat)
  | err (unsupportedParam : Option String)
deriving DecidableEq

/-- The `for _attempt in range(6)` retry loop of
`_openai_chat_completions_create_with_fallback`, plus the unconditional
final `create` call after it.  Returns the list of requests sent (one per
provider call, in order), the final cache, and the result (`Except.error p`
models the re-raised provider exception). -/
def fallbackLoopAux (provider : Nat → ProviderOutcome) (model : String) :
    Nat → Nat → OAIKwargs → ParamCache → List OAIKwargs →
    List OAIKwargs × ParamCache × Except (Option String) Nat
  | 0, idx, attempt, cache, log =>
    match provider idx with
    | .ok v => (log ++ [attempt], cache, .ok v)
    | .err p => (log ++ [attempt], cache, .error p)
  | fuel + 1, idx, attempt, cache, log =>
    match provider idx with
    | .ok v => (log ++ [attempt], cache, .ok v)
    | .err p =>
      match p with
      | some q =>
        if q ≠ "" ∧ kwargsHas attempt q = true ∧ q ≠ "model" ∧ q ≠ "messages" then
          fallbackLoopAux provider model fuel (idx + 1) (kwargsPop attempt q)
            (if model ≠ "" then cacheAdd cache model q else cache)
            (log ++ [attempt])
        else (log ++ [attempt], cache, .error (some q))
      | none => (log ++ [attempt], cache, .error none)

/-- `_openai_chat_completions_create_with_fallback`: pre-strip the params
already learned unsupported for the request's model, then run the retry
loop. -/
def openai_chat_completions_create_with_fallback
    (provider : Nat → ProviderOutcome) (create_kwargs : OAIKwargs)
    (cache : ParamCache) :
    List OAIKwargs × ParamCache × Except (Option String) Nat :=
  let attempt := create_kwargs
  let model := kwargsModel attempt
  let attempt :=
    match cacheGet cache model with
    | some known =>
      if known ≠ [] then attempt.filter fun kv => !(known.contains kv.1)
      else attempt
    | none => attempt
  fallbackLoopAux provider model 6 0 attempt cache []

theorem kwargsHas_pop_self (req : OAIKwargs) (k : String) :
    kwargsHas (kwargsPop req k) k = false := by
  simp only [kwargsHas, kwargsPop, List.any_eq_false]
  intro kv hkv
  rcases List.mem_filter.mp hkv with ⟨_, hne⟩
  simpa [bne_iff_ne] using hne

theorem kwargsHas_pop_ne (req : OAIKwargs) {k k' : String} (h : k' ≠ k) :
    kwargsHas (kwargsPop req k) k' = kwargsHas req k' := by
  simp only [kwargsHas, kwargsPop]
  induction req with
  | nil => rfl
  | cons kv rest ih =>
    rw [List.filter_cons]
    by_cases hk2 : kv.1 = k
    · rw [if_neg (by simp [hk2])]
      have hne : decide (kv.1 = k') = false := by
        simp only [decide_eq_false_iff_not]
        rw [hk2]
        exact fun hh => h hh.symm
      simp [List.any_cons, hne, ih]
    · rw [if_pos (by simp [hk2])]
      simp [List.any_cons, ih]

theorem fallbackLoopAux_ok (provider : Nat → ProviderOutcome) (model : String)
    (fuel idx : Nat) (attempt : OAIKwargs) (cache : ParamCache)
    (log : List OAIKwargs) (v : Nat) (hp : provider idx = .ok v) :
    fallbackLoopAux provider model fuel idx attempt cache log =
      (log ++ [attempt], cache, .ok v) := by
  cases fuel <;> simp [fallbackLoopAux, hp]

theorem fallbackLoopAux_err_continue (provider : Nat → ProviderOutcome)
    (model : String) (fuel idx : Nat) (attempt : OAIKwargs)
    (cache : ParamCache) (log : List OAIKwargs) (q : String)
    (hp : provider idx = .err (some q))
    (hcond : q ≠ "" ∧ kwargsHas attempt q = true ∧ q ≠ "model" ∧ q ≠ "messages") :
    fallbackLoopAux provider model (fuel + 1) idx attempt cache log =
      fallbackLoopAux provider model fuel (idx + 1) (kwargsPop attempt q)
        (if model ≠ "" then cacheAdd cache model q else cache)
        (log ++ [attempt]) := by
  rw [fallbackLoopAux, hp]
  dsimp only
  rw [if_pos hcond]

/-- C5: starting from a cache with nothing learned for the request's model,
with a provider that rejects `temperature`, then rejects `response_format`,
then succeeds, the fallback caller makes exactly three attempts: the first
carrying the request unchanged (hence both parameters), the second with only
`temperature` removed, the third with both removed; the third attempt's
result is returned. -/
theorem fallback_three_attempts
    (provider : Nat → ProviderOutcome) (req : OAIKwargs) (cache : ParamCache)
    (v : Nat)
    (hT : kwargsHas req "temperature" = true)
    (hR : kwargsHas req "response_format" = true)
    (hcache : cacheGet cache (kwargsModel req) = none ∨
      cacheGet cache (kwargsModel req) = some [])
    (h0 : provider 0 = .err (some "temperature"))
    (h1 : provider 1 = .err (some "response_format"))
    (h2 : provider 2 = .ok v) :
    (openai_chat_completions_create_with_fallback provider req cache).1 =
      [req, kwargsPop req "temperature",
        kwargsPop (kwargsPop req "temperature") "response_format"] ∧
    (openai_chat_completions_create_with_fallback provider req cache).2.2 =
      .ok v ∧
    kwargsHas (kwargsPop req "temperature") "temperature" = false ∧
    kwargsHas (kwargsPop req "temperature") "response_format" = true ∧
    kwargsHas (kwargsPop (kwargsPop req "temperature") "response_format")
      "temperature" = false ∧
    kwargsHas (kwargsPop (kwargsPop req "temperature") "response_format")
      "response_format" = false := by
  have hstrip : openai_chat_completions_create_with_fallback provider req cache =
      fallbackLoopAux provider (kwargsModel req) 6 0 req cache [] := by
    rcases hcache with hc | hc <;>
      simp [openai_chat_completions_create_with_fallback, hc]
  have hR1 : kwargsHas (kwargsPop req "temperature") "response_format" = true := by
    rw [kwargsHas_pop_ne req (by decide)]
    exact hR
  rw [hstrip]
  rw [show (6 : Nat) = 5 + 1 from rfl,
    fallbackLoopAux_err_continue provider (kwargsModel req) 5 0 req cache []
      "temperature" h0 ⟨by decide, hT, by decide, by decide⟩]
  rw [show (5 : Nat) = 4 + 1 from rfl,
    fallbackLoopAux_err_continue provider (kwargsModel req) 4 (0 + 1)
      (kwargsPop req "temperature") _ _ "response_format" h1
      ⟨by decide, hR1, by decide, by decide⟩]
  rw [fallbackLoopAux_ok provider (kwargsModel req) 4 (0 + 1 + 1) _ _ _ v h2]
  refine ⟨by simp, rfl, kwargsHas_pop_self req "temperature", hR1, ?_, ?_⟩
  · rw [kwargsHas_pop_ne _ (by decide)]
    exact kwargsHas_pop_self req "temperature"
  · exact kwargsHas_pop_self _ "response_format"

def providerC5 : Nat → ProviderOutcome := fun n =>
  if n = 0 then .err (some "temperature")
  else if n = 1 then .err (some "response_format")
  else .ok 7

def reqC5 : OAIKwargs :=
  [("model", "m"), ("messages", "hi"), ("temperature", "0"),
   ("response_format", "json_object")]

/-- Witness for C5 at a concrete request and provider script. -/
theorem fallback_three_attempts_witness :
    (openai_chat_completions_create_with_fallback providerC5 reqC5 []).1 =
      [reqC5, kwargsPop reqC5 "temperature",
        kwargsPop (kwargsPop reqC5 "temperature") "response_format"] ∧
    (openai_chat_completions_create_with_fallback providerC5 reqC5 []).2.2 =
      .ok 7 := by
  have h := fallback_three_attempts providerC5 reqC5 [] 7 (by decide) (by decide)
    (Or.inl (by decide)) rfl rfl rfl
  exact ⟨h.1, h.2.1⟩

theorem kwargsHas_filter_known (req : OAIKwargs) (known : List String)
    {k : String} (hk : kwargsHas req k = true)
    (hnk : known.contains k = false) :
    kwargsHas (req.filter fun kv => !(known.contains kv.1)) k = true := by
  simp only [kwargsHas, List.any_eq_true] at hk ⊢
  rcases hk with ⟨kv, hmem, hkv⟩
  refine ⟨kv, List.mem_filter.mpr ⟨hmem, ?_⟩, hkv⟩
  have hkv1 : kv.1 = k := by simpa using hkv
  rw [hkv1, hnk]
  decide

theorem fallbackLoopAux_preserves (provider : Nat → ProviderOutcome)
    (model : String) :
    ∀ fuel idx attempt cache log,
    kwargsHas attempt "model" = true → kwargsHas attempt "messages" = true →
    (∀ a ∈ log, kwargsHas a "model" = true ∧ kwargsHas a "messages" = true) →
    ∀ a ∈ (fallbackLoopAux provider model fuel idx attempt cache log).1,
      kwargsHas a "model" = true ∧ kwargsHas a "messages" = true := by
  intro fuel
  induction fuel with
  | zero =>
    intro idx attempt cache log hm hmsg hlog a ha
    have hterm : ∀ b ∈ log ++ [attempt],
        kwargsHas b "model" = true ∧ kwargsHas b "messages" = true := by
      intro b hb
      rcases List.mem_append.mp hb with hb | hb
      · exact hlog b hb
      · rcases List.mem_singleton.mp hb with rfl
        exact ⟨hm, hmsg⟩
    cases hp : provider idx <;> simp only [fallbackLoopAux, hp] at ha <;>
      exact hterm a ha
  | succ fuel ih =>
    intro idx attempt cache log hm hmsg hlog a ha
    have hterm : ∀ b ∈ log ++ [attempt],
        kwargsHas b "model" = true ∧ kwargsHas b "messages" = true := by
      intro b hb
      rcases List.mem_append.mp hb with hb | hb
      · exact hlog b hb
      · rcases List.mem_singleton.mp hb with rfl
        exact ⟨hm, hmsg⟩
    cases hp : provider idx with
    | ok v =>
      simp only [fallbackLoopAux, hp] at ha
      exact hterm a ha
    | err p =>
      cases p with
      | none =>
        simp only [fallbackLoopAux, hp] at ha
        exact hterm a ha
      | some q =>
        simp only [fallbackLoopAux, hp] at ha
        by_cases hcond : q ≠ "" ∧ kwargsHas attempt q = true ∧
            q ≠ "model" ∧ q ≠ "messages"
        · rw [if_pos hcond] at ha
          refine ih (idx + 1) (kwargsPop attempt q) _ (log ++ [attempt])
            ?_ ?_ hterm a ha
          · rw [kwargsHas_pop_ne attempt (Ne.symm hcond.2.2.1)]
            exact hm
          · rw [kwargsHas_pop_ne attempt (Ne.symm hcond.2.2.2)]
            exact hmsg
        · rw [if_neg hcond] at ha
          exact hterm a ha

/-- C6 (amended): for every initial request containing the `model` and
`messages` keys, every cache state whose learned set for the request's model
contains neither `model` nor `messages` (which includes every state the loop
itself can produce), and every sequence of provider responses, each attempt
sent by the fallback caller still contains the `model` and `messages`
entries; in particular the in-loop retry logic never removes either even
when a provider error names it.  (An adversarial cache that already maps the
model to a learned set containing `model` or `messages` is pre-stripped
without that guard — the counterexample — which is the only amendment.) -/
theorem fallback_never_drops_model_messages
    (provider : Nat → ProviderOutcome) (req : OAIKwargs) (cache : ParamCache)
    (hm : kwargsHas req "model" = true)
    (hmsg : kwargsHas req "messages" = true)
    (hc : ∀ l, cacheGet cache (kwargsModel req) = some l →
      l.contains "model" = false ∧ l.contains "messages" = false) :
    ∀ a ∈ (openai_chat_completions_create_with_fallback provider req cache).1,
      kwargsHas a "model" = true ∧ kwargsHas a "messages" = true := by
  intro a ha
  cases hcg : cacheGet cache (kwargsModel req) with
  | none =>
    simp only [openai_chat_completions_create_with_fallback, hcg] at ha
    exact fallbackLoopAux_preserves provider (kwargsModel req) 6 0 req cache []
      hm hmsg (by simp) a ha
  | some known =>
    simp only [openai_chat_completions_create_with_fallback, hcg] at ha
    rcases hc known hcg with ⟨hk1, hk2⟩
    by_cases hkn : known = []
    · rw [if_neg (by simp [hkn])] at ha
      exact fallbackLoopAux_preserves provider (kwargsModel req) 6 0 req cache []
        hm hmsg (by simp) a ha
    · rw [if_pos hkn] at ha
      exact fallbackLoopAux_preserves provider (kwargsModel req) 6 0 _ cache []
        (kwargsHas_filter_known req known hm hk1)
        (kwargsHas_filter_known req known hmsg hk2) (by simp) a ha

def providerOk : Nat → ProviderOutcome := fun _ => .ok 0

/-- C6, counterexample: with a cache state that already maps model `m` to the
learned set `{model}`, the pre-strip removes the `model` entry, so the first
(and only) attempt is sent without it. -/
theorem fallback_prestrip_drops_model_counterexample :
    (openai_chat_completions_create_with_fallback providerOk
      [("model", "m"), ("messages", "x")] [("m", ["model"])]).1 =
      [[("messages", "x")]] ∧
    kwargsHas [("messages", "x")] "model" = false := by
  exact ⟨rfl, by decide⟩

/-- Witness for C6 at a concrete request, empty cache and a provider that
immediately succeeds. -/
theorem fallback_never_drops_model_messages_witness :
    kwargsHas [("model", "m"), ("messages", "x")] "model" = true ∧
    kwargsHas [("model", "m"), ("messages", "x")] "messages" = true :=
  fallback_never_drops_model_messages providerOk
    [("model", "m"), ("messages", "x")] [] (by decide) (by decide)
    (fun l hl => by simp [cacheGet] at hl)
    [("model", "m"), ("messages", "x")] (by decide)

/-! ## `src/services/auth_service.py` — data model

Rows mirror the SQLite schema of `_init_db`; a `DB` value is the database
state.  `TEXT` timestamp columns are `Int` instants (`Option Int` when
nullable); `sha256` and the password hasher are function parameters;
`uuid4`/`token_urlsafe` values are explicit arguments. -/

/-- `_normalize_email`: `(email or "").strip().lower()`. -/
def normalize_email (email : String) : String := pyLower (pyStrip email)

/-- Python `(s or "").strip() or None`. -/
def strip_or_none (s : Option String) : Option String :=
  let t := pyStrip (s.getD "")
  if t = "" then none else some t

structure AuthConfig where
  inviteOnly : Bool
  inviteRequiredForLogin : Bool
  inviteCodes : List String
  emailVerifyTtlHours : Int
deriving DecidableEq

inductive AuthErr where
  | authError (msg : String)
  | invalidCredentials (msg : String)
  | emailNotVerified (msg : String)
  | inviteRequired (msg : String)
  | inviteInvalid (msg : String)
  | signupDisabled (msg : String)
deriving DecidableEq

structure UserRow where
  id : String
  primaryEmail : Option String
  displayName : Option String
  avatarUrl : Option String
  createdAt : Int
  lastLoginAt : Option Int
  isActive : Bool
deriving DecidableEq

structure IdentityRow where
  id : String
  userId : String
  provider : String
  providerSub : String
  email : Option String
  passwordHash : Option String
  emailVerified : Bool
  createdAt : Int
  lastUsedAt : Option Int
deriving DecidableEq

structure ProfileRow where
  userId : String
  senderProfileJson : String
  preferencesJson : String
  updatedAt : Int
deriving DecidableEq

structure VerificationRow where
  id : String
  identityId : String
  tokenHash : String
  expiresAt : Int
  usedAt : Option Int
  createdAt : Int
deriving DecidableEq

structure LoginEventRow where
  id : String
  userId : Option String
  provider : Option String
  email : Option String
  success : Bool
  reason : Option String
  createdAt : Int
deriving DecidableEq

structure InviteRow where
  id : String
  codeHash : String
  label : Option String
  allowedEmail : Option String
  createdAt : Int
  expiresAt : Option Int
  revokedAt : Option Int
  maxUses : Option Nat
  usedCount : Nat
deriving DecidableEq

structure InviteUsageRow where
  id : String
  inviteId : String
  userId : Option String
  email : Option String
  provider : Option String
  createdAt : Int
deriving DecidableEq

structure DB where
  users : List UserRow
  identities : List IdentityRow
  profiles : List ProfileRow
  verifications : List VerificationRow
  loginEvents : List LoginEventRow
  invites : List InviteRow
  inviteUsages : List InviteUsageRow
deriving DecidableEq

/-- The `User` dataclass produced by `_row_to_user`. -/
structure User where
  id : String
  primaryEmail : Option String
  displayName : Option String
  avatarUrl : Option String
  createdAt : Int
  lastLoginAt : Option Int
deriving DecidableEq

def row_to_user (row : UserRow) : User :=
  { id := row.id, primaryEmail := row.primaryEmail,
    displayName := row.displayName, avatarUrl := row.avatarUrl,
    createdAt := row.createdAt, lastLoginAt := row.lastLoginAt }

/-! ### Invite validation -/

/-- `_has_any_db_invites`: `SELECT 1 FROM invites LIMIT 1`. -/
def has_any_db_invites (db : DB) : Bool := !db.invites.isEmpty

/-- `_ensure_invites_configured`. -/
def ensure_invites_configured (cfg : AuthConfig) (db : DB) :
    Except AuthErr Unit :=
  if !cfg.inviteCodes.isEmpty then .ok ()
  else if has_any_db_invites db then .ok ()
  else .error (.signupDisabled
    "Invite gating is enabled but no invites are configured. Create DB invites or set INVITE_CODE/INVITE_CODES.")

/-- The final `max_uses` check and `return row["id"]` of `_validate_db_invite`. -/
def validate_db_invite_usage (row : InviteRow) : Except AuthErr String :=
  match row.maxUses with
  | some max_uses =>
    if row.usedCount ≥ max_uses then
      .error (.inviteInvalid "Invite code has reached its usage limit.")
    else .ok row.id
  | none => .ok row.id

/-- The `allowed_email` check of `_validate_db_invite` followed by the usage
check (`allowed_email` is truthy only when non-empty; `email_norm` is written
out as `normalize_email (email.getD "")`). -/
def validate_db_invite_email (row : InviteRow) (email : Option String) :
    Except AuthErr String :=
  match row.allowedEmail with
  | some allowed_email =>
    if allowed_email ≠ "" then
      if normalize_email (email.getD "") = "" then
        .error (.inviteInvalid "Email is required for this invite code.")
      else if normalize_email (email.getD "") ≠ allowed_email then
        .error (.inviteInvalid "Invite code is not valid for this email.")
      else validate_db_invite_usage row
    else validate_db_invite_usage row
  | none => validate_db_invite_usage row

/-- `_validate_db_invite`: look the code's hash up and run the row checks in
source order (revoked, expired, allowed-email, usage). -/
def validate_db_invite (h : String → String) (db : DB) (invite_code : String)
    (email : Option String) (now : Int) : Except AuthErr String :=
  let code_hash := h invite_code
  match db.invites.find? (fun r => r.codeHash = code_hash) with
  | none => .error (.inviteInvalid "Invalid invite code.")
  | some row =>
    if row.revokedAt.isSome then
      .error (.inviteInvalid "Invite code has been revoked.")
    else if (match row.expiresAt with
             | some expires_at => decide (expires_at < now)
             | none => false) then
      .error (.inviteInvalid "Invite code has expired.")
    else validate_db_invite_email row email

/-- `_validate_invite`. -/
def validate_invite (cfg : AuthConfig) (h : String → String) (db : DB)
    (invite_code : Option String) (enforce : Bool) (email : Option String)
    (now : Int) : Except AuthErr (Option String) :=
  if !enforce then .ok none
  else
    let code := pyStrip (invite_code.getD "")
    if code = "" then .error (.inviteRequired "Invite code is required.")
    else
      match ensure_invites_configured cfg db with
      | .error e => .error e
      | .ok _ =>
        if has_any_db_invites db then
          (validate_db_invite h db code email now).map some
        else if !cfg.inviteCodes.contains code then
          .error (.inviteInvalid "Invalid invite code.")
        else .ok none

def validate_invite_for_signup (cfg : AuthConfig) (h : String → String)
    (db : DB) (invite_code : Option String) (email : Option String)
    (now : Int) : Except AuthErr (Option String) :=
  validate_invite cfg h db invite_code cfg.inviteOnly email now

def validate_invite_for_login (cfg : AuthConfig) (h : String → String)
    (db : DB) (invite_code : Option String) (email : Option String)
    (now : Int) : Except AuthErr (Option String) :=
  validate_invite cfg h db invite_code cfg.inviteRequiredForLogin email now

/-- `record_invite_use`: increment `used_count` of the given invite and
append an `invite_usages` audit row. -/
def record_invite_use (db : DB) (invite_id : Option String) (usage_id : String)
    (user_id : Option String) (email : Option String)
    (provider : Option String) (now : Int) : DB :=
  match invite_id with
  | none => db
  | some iid =>
    if iid = "" then db
    else
      { db with
        invites := db.invites.map fun r =>
          if r.id = iid then { r with usedCount := r.usedCount + 1 } else r,
        inviteUsages := db.inviteUsages ++
          [{ id := usage_id, inviteId := iid, userId := user_id,
             email := match email with
               | some e => if e = "" then none else some (normalize_email e)
               | none => none,
             provider := provider, createdAt := now }] }

/-! ### C1: invite usage bound under the validate-then-record discipline -/

/-- One redemption under the validate-then-record discipline: a
`record_invite_use` call for an invite id just returned by a successful
`_validate_db_invite` of the current state. -/
def invite_redemption_step (h : String → String) (db db' : DB) : Prop :=
  ∃ code email now iid usage_id user_id provider,
    validate_db_invite h db code email now = .ok iid ∧
    db' = record_invite_use db (some iid) usage_id user_id email provider now

/-- Well-formedness the schema provides: invite ids are unique (`id TEXT
PRIMARY KEY`) and `used_count ≤ max_uses` where `max_uses` is set (true at
creation, where `used_count` starts at `0`). -/
def InvitesWf (db : DB) : Prop :=
  (db.invites.map (·.id)).Nodup ∧
  ∀ r ∈ db.invites, ∀ n, r.maxUses = some n → r.usedCount ≤ n

theorem validate_db_invite_usage_ok {row : InviteRow} {iid : String}
    (hok : validate_db_invite_usage row = .ok iid) :
    iid = row.id ∧ ∀ n, row.maxUses = some n → row.usedCount < n := by
  unfold validate_db_invite_usage at hok
  split at hok
  · rename_i max_uses heq
    by_cases hc : row.usedCount ≥ max_uses
    · rw [if_pos hc] at hok
      cases hok
    · rw [if_neg hc] at hok
      injection hok with hiid
      exact ⟨hiid.symm, fun n hn => by
        rw [heq] at hn
        injection hn with hn
        omega⟩
  · rename_i heq
    injection hok with hiid
    exact ⟨hiid.symm, fun n hn => by rw [heq] at hn; cases hn⟩

theorem validate_db_invite_email_ok {row : InviteRow} {email : Option String}
    {iid : String} (hok : validate_db_invite_email row email = .ok iid) :
    iid = row.id ∧ ∀ n, row.maxUses = some n → row.usedCount < n := by
  unfold validate_db_invite_email at hok
  split at hok
  · rename_i ae heq
    split_ifs at hok <;>
      first
        | cases hok
        | exact validate_db_invite_usage_ok hok
  · exact validate_db_invite_usage_ok hok

theorem validate_db_invite_ok {h : String → String} {db : DB} {code : String}
    {email : Option String} {now : Int} {iid : String}
    (hok : validate_db_invite h db code email now = .ok iid) :
    ∃ row, db.invites.find? (fun r => r.codeHash = h code) = some row ∧
      iid = row.id ∧ ∀ n, row.maxUses = some n → row.usedCount < n := by
  simp only [validate_db_invite] at hok
  split at hok
  · cases hok
  · rename_i row hf
    by_cases h1 : row.revokedAt.isSome
    · rw [if_pos h1] at hok
      cases hok
    · rw [if_neg h1] at hok
      by_cases h2 : (match row.expiresAt with
          | some expires_at => decide (expires_at < now)
          | none => false) = true
      · rw [if_pos h2] at hok
        cases hok
      · rw [if_neg h2] at hok
        exact ⟨row, hf, validate_db_invite_email_ok hok⟩

theorem validate_db_invite_email_at_limit {row : InviteRow}
    (email : Option String) {N : Nat} (hmax : row.maxUses = some N)
    (hcnt : row.usedCount ≥ N) :
    ∃ msg, validate_db_invite_email row email = .error (.inviteInvalid msg) := by
  have husage : validate_db_invite_usage row =
      .error (.inviteInvalid "Invite code has reached its usage limit.") := by
    unfold validate_db_invite_usage
    rw [hmax]
    simp [hcnt]
  unfold validate_db_invite_email
  split
  · rename_i ae heq
    split_ifs with g1 g2 g3
    · exact ⟨_, rfl⟩
    · exact ⟨_, rfl⟩
    · exact ⟨_, husage⟩
    · exact ⟨_, husage⟩
  · exact ⟨_, husage⟩

theorem validate_db_invite_at_limit {h : String → String} {db : DB}
    (code : String) (email : Option String) (now : Int) {row : InviteRow}
    {N : Nat} (hf : db.invites.find? (fun r => r.codeHash = h code) = some row)
    (hmax : row.maxUses = some N) (hcnt : row.usedCount ≥ N) :
    ∃ msg, validate_db_invite h db code email now =
      .error (.inviteInvalid msg) := by
  simp only [validate_db_invite, hf]
  split_ifs with h1 h2
  · exact ⟨_, rfl⟩
  · exact ⟨_, rfl⟩
  · exact validate_db_invite_email_at_limit email hmax hcnt

theorem invite_redemption_step_preserves {h : String → String} {db db' : DB}
    (hwf : InvitesWf db) (hstep : invite_redemption_step h db db') :
    InvitesWf db' := by
  obtain ⟨code, email, now, iid, usage_id, user_id, provider, hok, rfl⟩ := hstep
  obtain ⟨row, hf, hiid, hlt⟩ := validate_db_invite_ok hok
  simp only [record_invite_use]
  by_cases hiid0 : iid = ""
  · rw [if_pos hiid0]
    exact hwf
  · rw [if_neg hiid0]
    have hrow_mem : row ∈ db.invites := List.mem_of_find?_eq_some hf
    constructor
    · have hids : (db.invites.map fun r =>
          if r.id = iid then { r with usedCount := r.usedCount + 1 } else r).map
            (·.id) = db.invites.map (·.id) := by
        rw [List.map_map]
        apply List.map_congr_left
        intro r hr
        by_cases hc : r.id = iid <;> simp [hc]
      simpa [hids] using hwf.1
    · intro r' hr' n hn
      rcases List.mem_map.mp hr' with ⟨r, hr, rfl⟩
      by_cases hc : r.id = iid
      · have hreq : r = row := by
          apply List.inj_on_of_nodup_map hwf.1 hr hrow_mem
          rw [hc, hiid]
        subst hreq
        rw [if_pos hc] at hn ⊢
        simp only at hn
        have := hlt n hn
        simpa using this
      · rw [if_neg hc] at hn ⊢
        exact hwf.2 r hr n hn

/-- C1: for an invite with `max_uses = N`, under the validate-then-record
discipline (each `record_invite_use` preceded by a successful
`_validate_db_invite` of that invite against the current state), the
invite's `used_count` never exceeds `N`; and once `N` uses have been
recorded, any further validation resolving to that invite fails with
`InviteInvalidError`, regardless of which prior redemptions succeeded. -/
theorem invite_usage_never_exceeds_max (h : String → String) (db0 db : DB)
    (hwf : InvitesWf db0)
    (hreach : Relation.ReflTransGen (invite_redemption_step h) db0 db) :
    ∀ r ∈ db.invites, ∀ N, r.maxUses = some N →
      r.usedCount ≤ N ∧
      (r.usedCount = N → ∀ code email now,
        db.invites.find? (fun q => q.codeHash = h code) = some r →
        ∃ msg, validate_db_invite h db code email now =
          .error (.inviteInvalid msg)) := by
  have hwfdb : InvitesWf db := by
    induction hreach with
    | refl => exact hwf
    | tail _ hstep ih => exact invite_redemption_step_preserves ih hstep
  intro r hr N hN
  refine ⟨hwfdb.2 r hr N hN, fun hcnt code email now hfind => ?_⟩
  exact validate_db_invite_at_limit code email now hfind hN (le_of_eq hcnt.symm)

def hashId : String → String := fun s => s

def inviteRowC1 : InviteRow :=
  { id := "i1", codeHash := "CODE", label := none, allowedEmail := none,
    createdAt := 0, expiresAt := none, revokedAt := none,
    maxUses := some 1, usedCount := 0 }

def dbC1 : DB :=
  { users := [], identities := [], profiles := [], verifications := [],
    loginEvents := [], invites := [inviteRowC1], inviteUsages := [] }

def dbC1' : DB := record_invite_use dbC1 (some "i1") "us1" none none none 0

/-- Witness for C1: one invite with `max_uses = 1`; after one
validate-then-record redemption the next validation fails with
`InviteInvalidError`. -/
theorem invite_usage_never_exceeds_max_witness :
    ∃ msg, validate_db_invite hashId dbC1' "CODE" none 0 =
      .error (.inviteInvalid msg) := by
  have hwf : InvitesWf dbC1 := by
    constructor
    · decide
    · intro r hr n hn
      rcases List.mem_singleton.mp hr with rfl
      simp [inviteRowC1] at hn ⊢
  have hstep : invite_redemption_step hashId dbC1 dbC1' :=
    ⟨"CODE", none, 0, "i1", "us1", none, none, by decide, rfl⟩
  have h := invite_usage_never_exceeds_max hashId dbC1 dbC1' hwf
    (Relation.ReflTransGen.single hstep)
    { inviteRowC1 with usedCount := 1 } (by decide) 1 rfl
  exact h.2 rfl "CODE" none 0 (by decide)

/-! ### C7: invite-validation resolution order -/

def dbEmpty : DB :=
  { users := [], identities := [], profiles := [], verifications := [],
    loginEvents := [], invites := [], inviteUsages := [] }

def cfgStatic : AuthConfig :=
  { inviteOnly := true, inviteRequiredForLogin := false,
    inviteCodes := ["INV123"], emailVerifyTtlHours := 24 }

def cfgNoInvites : AuthConfig :=
  { inviteOnly := true, inviteRequiredForLogin := false,
    inviteCodes := [], emailVerifyTtlHours := 24 }

/-- C7, counterexample: with gating enabled, no database invite rows and no
static codes, an attempt with a missing invite code fails with
`InviteRequiredError`, not with the `SignupDisabled` condition the claim
asserts for every attempt. -/
theorem validate_invite_empty_code_counterexample :
    validate_invite cfgNoInvites hashId dbEmpty none true none 0 =
      .error (.inviteRequired "Invite code is required.") := by
  rfl

/-- C7 (amended): with gating enforced and a non-empty (post-strip) code:
if any database invite rows exist, validation is exclusively against the
database (in particular a code on the static list but absent from the
database fails with `InviteInvalidError`); if no database rows exist and
static codes are configured, validation is exact membership of the stripped
code in the static list; if neither database rows nor static codes exist,
the attempt fails with `SignupDisabledError`.  An attempt whose code strips
to empty instead fails with `InviteRequiredError` before the configuration
check — the one amendment to the original claim. -/
theorem validate_invite_resolution (cfg : AuthConfig) (h : String → String)
    (db : DB) (invite_code : Option String) (email : Option String)
    (now : Int) (hcode : pyStrip (invite_code.getD "") ≠ "") :
    (db.invites ≠ [] →
      validate_invite cfg h db invite_code true email now =
        (validate_db_invite h db (pyStrip (invite_code.getD ""))
          email now).map some) ∧
    (db.invites ≠ [] →
      (∀ r ∈ db.invites, r.codeHash ≠ h (pyStrip (invite_code.getD ""))) →
      validate_invite cfg h db invite_code true email now =
        .error (.inviteInvalid "Invalid invite code.")) ∧
    (db.invites = [] → cfg.inviteCodes ≠ [] →
      validate_invite cfg h db invite_code true email now =
        (if cfg.inviteCodes.contains (pyStrip (invite_code.getD "")) then
          .ok none
         else .error (.inviteInvalid "Invalid invite code."))) ∧
    (db.invites = [] → cfg.inviteCodes = [] →
      validate_invite cfg h db invite_code true email now =
        .error (.signupDisabled
          "Invite gating is enabled but no invites are configured. Create DB invites or set INVITE_CODE/INVITE_CODES.")) := by
  have part1 : db.invites ≠ [] →
      validate_invite cfg h db invite_code true email now =
        (validate_db_invite h db (pyStrip (invite_code.getD ""))
          email now).map some := by
    intro hdb
    have hhas : has_any_db_invites db = true := by
      simp [has_any_db_invites, List.isEmpty_iff, hdb]
    have hens : ensure_invites_configured cfg db = .ok () := by
      unfold ensure_invites_configured
      by_cases e1 : (!cfg.inviteCodes.isEmpty) = true
      · rw [if_pos e1]
      · rw [if_neg e1, if_pos hhas]
    simp only [validate_invite, Bool.not_true, if_neg hcode, hens, hhas]
    simp
  refine ⟨part1, fun hdb hnone => ?_, fun hdb hcodes => ?_, fun hdb hcodes => ?_⟩
  · rw [part1 hdb]
    have hfind : db.invites.find?
        (fun r => r.codeHash = h (pyStrip (invite_code.getD ""))) = none := by
      rw [List.find?_eq_none]
      intro r hr
      simp [hnone r hr]
    simp [validate_db_invite, hfind, Except.map]
  · have hhas : has_any_db_invites db = false := by
      simp [has_any_db_invites, hdb]
    have hens : ensure_invites_configured cfg db = .ok () := by
      unfold ensure_invites_configured
      rw [if_pos (by simp [List.isEmpty_iff, hcodes])]
    simp only [validate_invite, Bool.not_true, if_neg hcode, hens, hhas]
    by_cases hc : cfg.inviteCodes.contains (pyStrip (invite_code.getD ""))
    · simp [hc]
    · simp [hc]
  · have hhas : has_any_db_invites db = false := by
      simp [has_any_db_invites, hdb]
    have hens : ensure_invites_configured cfg db = .error (.signupDisabled
        "Invite gating is enabled but no invites are configured. Create DB invites or set INVITE_CODE/INVITE_CODES.") := by
      unfold ensure_invites_configured
      rw [if_neg (by simp [hcodes]), if_neg (by simp [hhas])]
    simp only [validate_invite, Bool.not_true, if_neg hcode, hens]
    simp

/-- Witness for C7: a static code accepted when the database holds no
invites, and rejected when a database invite row exists. -/
theorem validate_invite_resolution_witness :
    validate_invite cfgStatic hashId dbEmpty (some "INV123") true none 0 =
      .ok none ∧
    validate_invite cfgStatic hashId dbC1 (some "INV123") true none 0 =
      .error (.inviteInvalid "Invalid invite code.") := by
  constructor
  · have h := (validate_invite_resolution cfgStatic hashId dbEmpty
      (some "INV123") none 0 (by decide)).2.2.1 rfl (by decide)
    rwa [if_pos (by decide)] at h
  · exact (validate_invite_resolution cfgStatic hashId dbC1
      (some "INV123") none 0 (by decide)).2.1 (by decide)
      (by decide)

/-! ### Password accounts and email verification -/

structure EmailVerification where
  token : String
  expiresAt : Int
  email : String
deriving DecidableEq

/-- `_ensure_profile_row`: `INSERT OR IGNORE` keyed on `user_id`. -/
def ensure_profile_row (db : DB) (user_id : String) (now : Int) : DB :=
  if db.profiles.any fun p => p.userId = user_id then db
  else
    { db with profiles := db.profiles ++
        [{ userId := user_id, senderProfileJson := "\x7b\x7d",
           preferencesJson := "\x7b\x7d", updatedAt := now }] }

/-- `_record_login_event`. -/
def record_login_event (db : DB) (event_id : String) (user_id : Option String)
    (provider : Option String) (email : Option String) (success : Bool)
    (reason : Option String) (now : Int) : DB :=
  { db with loginEvents := db.loginEvents ++
      [{ id := event_id, userId := user_id, provider := provider,
         email := email, success := success, reason := reason,
         createdAt := now }] }

/-- `_create_email_verification`: insert a row holding the token's hash and
return the plaintext token with its expiry.  `token` models
`secrets.token_urlsafe(32)` and `verification_id` models `uuid4`. -/
def create_email_verification (cfg : AuthConfig) (h : String → String)
    (db : DB) (identity_id : String) (email : String)
    (verification_id token : String) (now : Int) : EmailVerification × DB :=
  let expires_at := now + cfg.emailVerifyTtlHours
  ({ token := token, expiresAt := expires_at, email := email },
   { db with verifications := db.verifications ++
      [{ id := verification_id, identityId := identity_id,
         tokenHash := h token, expiresAt := expires_at, usedAt := none,
         createdAt := now }] })

/-- `create_password_user`.  `ph` models `generate_password_hash`; the four
id arguments and the token model the `uuid4`/`token_urlsafe` calls.  On an
exception the transaction rolls back, so every error outcome carries the
unchanged database. -/
def create_password_user (cfg : AuthConfig) (h ph : String → String) (db : DB)
    (email password : String) (display_name : Option String)
    (invite_code : Option String) (now : Int)
    (user_id identity_id verification_id event_id token : String) :
    Except AuthErr EmailVerification × DB :=
  let email_norm := normalize_email email
  if email_norm = "" then (.error (.authError "Email is required."), db)
  else if password = "" ∨ password.length < 8 then
    (.error (.authError "Password must be at least 8 characters."), db)
  else
    match validate_invite_for_signup cfg h db invite_code (some email_norm) now with
    | .error e => (.error e, db)
    | .ok _ =>
      if db.identities.any fun ai => ai.email = some email_norm then
        (.error (.authError "An account with this email already exists."), db)
      else
        let user : UserRow :=
          { id := user_id, primaryEmail := some email_norm,
            displayName := strip_or_none display_name, avatarUrl := none,
            createdAt := now, lastLoginAt := none, isActive := true }
        let identity : IdentityRow :=
          { id := identity_id, userId := user_id, provider := "password",
            providerSub := email_norm, email := some email_norm,
            passwordHash := some (ph password), emailVerified := false,
            createdAt := now, lastUsedAt := none }
        let db1 := { db with users := db.users ++ [user],
                             identities := db.identities ++ [identity] }
        let db2 := ensure_profile_row db1 user_id now
        let vdb := create_email_verification cfg h db2 identity_id email_norm
          verification_id token now
        let db3 := record_login_event vdb.2 event_id (some user_id)
          (some "password") (some email_norm) true (some "signup") now
        (.ok vdb.1, db3)

/-- `verify_email_token`: pure lookup-and-consume; every failure returns
`none` with the database unchanged (the source has no raising path). -/
def verify_email_token (h : String → String) (db : DB) (token : String)
    (now : Int) : Option String × DB :=
  let token := pyStrip token
  if token = "" then (none, db)
  else
    match db.verifications.find? fun ev => ev.tokenHash = h token with
    | none => (none, db)
    | some ev =>
      match db.identities.find? fun ai => ai.id = ev.identityId with
      | none => (none, db)
      | some ai =>
        if ev.usedAt.isSome then (none, db)
        else if ev.expiresAt < now then (none, db)
        else
          let db1 := { db with
            identities := db.identities.map fun a =>
              if a.id = ai.id then
                { a with emailVerified := true, lastUsedAt := some now }
              else a,
            verifications := db.verifications.map fun e =>
              if e.id = ev.id then { e with usedAt := some now } else e }
          (some ai.userId, ensure_profile_row db1 ai.userId now)

/-- The body of `authenticate_password` as executed inside its transaction:
failure outcomes still carry the `login_events` insert made before the
raise.  `chk hash password` models `check_password_hash(hash, password)`. -/
def authenticate_password_body (chk : String → String → Bool) (db : DB)
    (email password : String) (event_id : String) (now : Int) :
    Except AuthErr User × DB :=
  let email_norm := normalize_email email
  if email_norm = "" ∨ password = "" then
    (.error (.invalidCredentials "Invalid email or password."), db)
  else
    let row? : Option (IdentityRow × UserRow) :=
      match db.identities.find? fun ai =>
        ai.provider = "password" ∧ ai.providerSub = email_norm with
      | none => none
      | some ai =>
        match db.users.find? fun u => u.id = ai.userId with
        | none => none
        | some u => some (ai, u)
    match row? with
    | none =>
      (.error (.invalidCredentials "Invalid email or password."),
       record_login_event db event_id none (some "password") (some email_norm)
         false (some "invalid_credentials") now)
    | some (ai, u) =>
      let hash_ok := match ai.passwordHash with
        | none => false
        | some hsh => if hsh = "" then false else chk hsh password
      if !hash_ok then
        (.error (.invalidCredentials "Invalid email or password."),
         record_login_event db event_id none (some "password")
           (some email_norm) false (some "invalid_credentials") now)
      else if !ai.emailVerified then
        (.error (.emailNotVerified "Email not verified."),
         record_login_event db event_id (some ai.userId) (some "password")
           (some email_norm) false (some "email_not_verified") now)
      else
        let db1 := { db with
          identities := db.identities.map fun (a : IdentityRow) =>
            if a.id = ai.id then { a with lastUsedAt := some now } else a }
        let db2 := { db1 with
          users := db1.users.map fun (w : UserRow) =>
            if w.id = ai.userId then { w with lastLoginAt := some now }
            else w }
        let db3 := record_login_event db2 event_id (some ai.userId)
          (some "password") (some email_norm) true (some "login") now
        (.ok (row_to_user u), ensure_profile_row db3 ai.userId now)

/-- `authenticate_password` as observed after the transaction: the source
raises its error inside `with self._connect() as conn:`, whose `__exit__`
rolls the transaction back, so a failure outcome persists none of the body's
writes (in particular not the failure `login_events` row). -/
def authenticate_password (chk : String → String → Bool) (db : DB)
    (email password : String) (event_id : String) (now : Int) :
    Except AuthErr User × DB :=
  match authenticate_password_body chk db email password event_id now with
  | (.ok u, db') => (.ok u, db')
  | (.error e, _) => (.error e, db)

/-! ### Google accounts -/

/-- The fresh `uuid4` values an `authenticate_google` call may consume. -/
structure GoogleIds where
  linkIdentityId : String
  newUserId : String
  newIdentityId : String
  eventId : String
deriving DecidableEq

/-- The `# New user (invite-only)` tail of `authenticate_google`: validate
invite gating as for password signup, then create a fresh user and google
identity.  The final `SELECT ... WHERE id = ?` re-read cannot miss the row
just inserted; the unreachable miss is modelled as the exception (and hence
rollback) the source's `_row_to_user(None)` would raise. -/
def authenticate_google_signup (cfg : AuthConfig) (h : String → String)
    (db : DB) (google_sub : String) (email_norm : Option String)
    (display_name avatar_url : Option String) (email_verified : Option Bool)
    (invite_code : Option String) (ids : GoogleIds) (now : Int) :
    Except AuthErr User × DB :=
  match validate_invite_for_signup cfg h db invite_code email_norm now with
  | .error e => (.error e, db)
  | .ok _ =>
    let user : UserRow :=
      { id := ids.newUserId, primaryEmail := email_norm,
        displayName := strip_or_none display_name, avatarUrl := avatar_url,
        createdAt := now, lastLoginAt := some now, isActive := true }
    let identity : IdentityRow :=
      { id := ids.newIdentityId, userId := ids.newUserId,
        provider := "google", providerSub := google_sub, email := email_norm,
        passwordHash := none, emailVerified := (email_verified = some true),
        createdAt := now, lastUsedAt := some now }
    let db1 := { db with users := db.users ++ [user],
                         identities := db.identities ++ [identity] }
    let db2 := ensure_profile_row db1 ids.newUserId now
    let db3 := record_login_event db2 ids.eventId (some ids.newUserId)
      (some "google") email_norm true (some "signup_and_login") now
    match db3.users.find? fun u => u.id = ids.newUserId with
    | some u => (.ok (row_to_user u), db3)
    | none => (.error (.authError "user row missing"), db)

/-- The user-matching query pair of the linking branch: first
`users.primary_email = ?`, then any `auth_identities.email = ?` joined back
to its user. -/
def google_link_user_row (db : DB) (email_norm : String) : Option UserRow :=
  match db.users.find? fun u => u.primaryEmail = some email_norm with
  | some u => some u
  | none =>
    match db.identities.find? fun ai => ai.email = some email_norm with
    | some ai => db.users.find? fun u => u.id = ai.userId
    | none => none

/-- `authenticate_google`: three-way resolution — existing google identity
(login), linking by matching email with `email_verified is True`, or
new-account signup. -/
def authenticate_google (cfg : AuthConfig) (h : String → String) (db : DB)
    (google_sub : String) (email display_name avatar_url : Option String)
    (email_verified : Option Bool) (invite_code : Option String)
    (ids : GoogleIds) (now : Int) : Except AuthErr User × DB :=
  if google_sub = "" then (.error (.authError "Missing Google subject."), db)
  else
    let email_norm : Option String := match email with
      | none => none
      | some e => if e = "" then none else some (normalize_email e)
    match db.identities.find? fun ai =>
        ai.provider = "google" ∧ ai.providerSub = google_sub with
    | some identity =>
      let user_id := identity.userId
      let db1 := { db with
        identities := db.identities.map fun (a : IdentityRow) =>
          if a.provider = "google" ∧ a.providerSub = google_sub then
            { a with lastUsedAt := some now }
          else a }
      let db2 := { db1 with
        users := db1.users.map fun (u : UserRow) =>
          if u.id = user_id then
            { u with primaryEmail := u.primaryEmail <|> email_norm,
                     displayName := strip_or_none display_name <|> u.displayName,
                     avatarUrl := avatar_url <|> u.avatarUrl,
                     lastLoginAt := some now }
          else u }
      let db3 := ensure_profile_row db2 user_id now
      let db4 := record_login_event db3 ids.eventId (some user_id)
        (some "google") email_norm true (some "login") now
      match db4.users.find? fun u => u.id = user_id with
      | some u => (.ok (row_to_user u), db4)
      | none => (.error (.authError "user row missing"), db)
    | none =>
      let user_row : Option UserRow := match email_norm with
        | none => none
        | some en => if en = "" then none else google_link_user_row db en
      match user_row with
      | some u =>
        if email_verified = some true then
          let identity : IdentityRow :=
            { id := ids.linkIdentityId, userId := u.id, provider := "google",
              providerSub := google_sub, email := email_norm,
              passwordHash := none, emailVerified := true,
              createdAt := now, lastUsedAt := some now }
          let db1 := { db with identities := db.identities ++ [identity] }
          let db2 := { db1 with
            users := db1.users.map fun (w : UserRow) =>
              if w.id = u.id then
                { w with displayName := strip_or_none display_name <|> w.displayName,
                         avatarUrl := avatar_url <|> w.avatarUrl,
                         lastLoginAt := some now }
              else w }
          let db3 := ensure_profile_row db2 u.id now
          let db4 := record_login_event db3 ids.eventId (some u.id)
            (some "google") email_norm true (some "link_and_login") now
          (.ok (row_to_user u), db4)
        else
          authenticate_google_signup cfg h db google_sub email_norm
            display_name avatar_url email_verified invite_code ids now
      | none =>
        authenticate_google_signup cfg h db google_sub email_norm
          display_name avatar_url email_verified invite_code ids now

/-! ### C2: signup → verify round trip -/

@[simp]
theorem ensure_profile_row_users (db : DB) (u : String) (n : Int) :
    (ensure_profile_row db u n).users = db.users := by
  unfold ensure_profile_row
  split <;> rfl

@[simp]
theorem ensure_profile_row_identities (db : DB) (u : String) (n : Int) :
    (ensure_profile_row db u n).identities = db.identities := by
  unfold ensure_profile_row
  split <;> rfl

@[simp]
theorem ensure_profile_row_verifications (db : DB) (u : String) (n : Int) :
    (ensure_profile_row db u n).verifications = db.verifications := by
  unfold ensure_profile_row
  split <;> rfl

@[simp]
theorem ensure_profile_row_loginEvents (db : DB) (u : String) (n : Int) :
    (ensure_profile_row db u n).loginEvents = db.loginEvents := by
  unfold ensure_profile_row
  split <;> rfl

@[simp]
theorem ensure_profile_row_invites (db : DB) (u : String) (n : Int) :
    (ensure_profile_row db u n).invites = db.invites := by
  unfold ensure_profile_row
  split <;> rfl

theorem find?_append_none {α : Type} (p : α → Bool) (l₁ l₂ : List α)
    (h : l₁.find? p = none) : (l₁ ++ l₂).find? p = l₂.find? p := by
  induction l₁ with
  | nil => rfl
  | cons x xs ih =>
    cases hp : p x with
    | true =>
      rw [List.find?_cons_of_pos _ hp] at h
      cases h
    | false =>
      rw [List.cons_append, List.find?_cons_of_neg _ (by simp [hp])]
      rw [List.find?_cons_of_neg _ (by simp [hp])] at h
      exact ih h

/-- C2: a successful `create_password_user` returning token `t` verifies to
the created user's id on the first `verify_email_token(t)` before expiry;
the second call with the same token returns `none` (and leaves the state
unchanged, so every later call does too); and verification failure — token
not found, already used, or expired — yields `none` rather than an
exception.  The hypotheses record what the source guarantees about its
random values: `secrets.token_urlsafe` tokens are non-empty and
whitespace-free, the token hash is fresh, and the identity `uuid4` is
fresh. -/
theorem create_then_verify_round_trip
    (cfg : AuthConfig) (h ph : String → String) (db : DB)
    (email password : String) (display_name invite_code : Option String)
    (now : Int) (user_id identity_id verification_id event_id token : String)
    (ver : EmailVerification) (db1 : DB)
    (hcreate : create_password_user cfg h ph db email password display_name
      invite_code now user_id identity_id verification_id event_id token =
      (.ok ver, db1))
    (htok_str : pyStrip token = token) (htok_ne : token ≠ "")
    (hfresh : ∀ ev ∈ db.verifications, ev.tokenHash ≠ h token)
    (hid_fresh : ∀ ai ∈ db.identities, ai.id ≠ identity_id) :
    ver.token = token ∧
    (∀ now', ¬ ver.expiresAt < now' →
      (verify_email_token h db1 token now').1 = some user_id ∧
      ∀ now'', verify_email_token h (verify_email_token h db1 token now').2
        token now'' =
        (none, (verify_email_token h db1 token now').2)) ∧
    (∀ (db' : DB) (tok : String) (n : Int),
      db'.verifications.find? (fun ev => ev.tokenHash = h (pyStrip tok)) =
        none →
      (verify_email_token h db' tok n).1 = none) ∧
    (∀ (db' : DB) (tok : String) (n : Int) ev,
      db'.verifications.find? (fun ev => ev.tokenHash = h (pyStrip tok)) =
        some ev →
      ev.usedAt.isSome ∨ ev.expiresAt < n →
      (verify_email_token h db' tok n).1 = none) := by
  have hfail3 : ∀ (db' : DB) (tok : String) (n : Int),
      db'.verifications.find? (fun ev => ev.tokenHash = h (pyStrip tok)) =
        none →
      (verify_email_token h db' tok n).1 = none := by
    intro db' tok n hfind
    simp only [verify_email_token]
    split_ifs with h0
    · rfl
    · simp [hfind]
  have hfail4_pair : ∀ (db' : DB) (tok : String) (n : Int) ev,
      db'.verifications.find? (fun ev => ev.tokenHash = h (pyStrip tok)) =
        some ev →
      ev.usedAt.isSome ∨ ev.expiresAt < n →
      verify_email_token h db' tok n = (none, db') := by
    intro db' tok n ev hfind hcase
    simp only [verify_email_token]
    split_ifs with h0
    · rfl
    · simp only [hfind]
      cases hai : db'.identities.find? fun ai => ai.id = ev.identityId with
      | none => simp [hai]
      | some ai =>
        simp only [hai]
        rcases hcase with hused | hexp
        · simp [hused]
        · by_cases hu : ev.usedAt.isSome
          · simp [hu]
          · simp [hu, hexp]
  have hfail4 : ∀ (db' : DB) (tok : String) (n : Int) ev,
      db'.verifications.find? (fun ev => ev.tokenHash = h (pyStrip tok)) =
        some ev →
      ev.usedAt.isSome ∨ ev.expiresAt < n →
      (verify_email_token h db' tok n).1 = none := by
    intro db' tok n ev hfind hcase
    rw [hfail4_pair db' tok n ev hfind hcase]
  -- Invert the successful create.
  simp only [create_password_user] at hcreate
  by_cases hA : normalize_email email = ""
  · rw [if_pos hA] at hcreate
    simp at hcreate
  rw [if_neg hA] at hcreate
  by_cases hB : password = "" ∨ password.length < 8
  · rw [if_pos hB] at hcreate
    simp at hcreate
  rw [if_neg hB] at hcreate
  cases hval : validate_invite_for_signup cfg h db invite_code
      (some (normalize_email email)) now with
  | error e =>
    simp only [hval] at hcreate
    simp at hcreate
  | ok v =>
    simp only [hval] at hcreate
    by_cases hC : db.identities.any fun ai =>
        ai.email = some (normalize_email email)
    · rw [if_pos hC] at hcreate
      simp at hcreate
    rw [if_neg hC] at hcreate
    rw [Prod.mk.injEq] at hcreate
    obtain ⟨hv, hdb⟩ := hcreate
    rw [Except.ok.injEq] at hv
    subst hv
    have hverifs : db1.verifications = db.verifications ++
        [{ id := verification_id, identityId := identity_id,
           tokenHash := h token,
           expiresAt := now + cfg.emailVerifyTtlHours, usedAt := none,
           createdAt := now }] := by
      rw [← hdb]
      simp [record_login_event, create_email_verification]
    have hidents : db1.identities = db.identities ++
        [{ id := identity_id, userId := user_id, provider := "password",
           providerSub := normalize_email email,
           email := some (normalize_email email),
           passwordHash := some (ph password), emailVerified := false,
           createdAt := now, lastUsedAt := none }] := by
      rw [← hdb]
      simp [record_login_event, create_email_verification]
    have hfind1 : db1.verifications.find?
        (fun ev => ev.tokenHash = h token) =
        some { id := verification_id, identityId := identity_id,
               tokenHash := h token,
               expiresAt := now + cfg.emailVerifyTtlHours, usedAt := none,
               createdAt := now } := by
      rw [hverifs,
        find?_append_none _ _ _ (List.find?_eq_none.mpr
          (fun x hx => by simp [hfresh x hx]))]
      simp
    have hfindid : db1.identities.find? (fun ai => ai.id = identity_id) =
        some { id := identity_id, userId := user_id, provider := "password",
               providerSub := normalize_email email,
               email := some (normalize_email email),
               passwordHash := some (ph password), emailVerified := false,
               createdAt := now, lastUsedAt := none } := by
      rw [hidents,
        find?_append_none _ _ _ (List.find?_eq_none.mpr
          (fun x hx => by simp [hid_fresh x hx]))]
      simp
    refine ⟨rfl, fun now' hexp => ?_, hfail3, hfail4⟩
    have hv1 : verify_email_token h db1 token now' =
        (some user_id,
         ensure_profile_row
           { db1 with
             identities := db1.identities.map fun a =>
               if a.id = identity_id then
                 { a with emailVerified := true, lastUsedAt := some now' }
               else a,
             verifications := db1.verifications.map fun e =>
               if e.id = verification_id then { e with usedAt := some now' }
               else e }
           user_id now') := by
      simp only [verify_email_token, htok_str]
      rw [if_neg htok_ne]
      simp only [hfind1, hfindid]
      rw [if_neg (by simp), if_neg (by simpa using hexp)]
    rw [hv1]
    refine ⟨rfl, fun now'' => ?_⟩
    have hfind2 : (ensure_profile_row
        { db1 with
          identities := db1.identities.map fun a =>
            if a.id = identity_id then
              { a with emailVerified := true, lastUsedAt := some now' }
            else a,
          verifications := db1.verifications.map fun e =>
            if e.id = verification_id then { e with usedAt := some now' }
            else e }
        user_id now').verifications.find?
          (fun ev => ev.tokenHash = h (pyStrip token)) =
        some { id := verification_id, identityId := identity_id,
               tokenHash := h token,
               expiresAt := now + cfg.emailVerifyTtlHours,
               usedAt := some now', createdAt := now } := by
      rw [htok_str]
      simp only [ensure_profile_row_verifications]
      rw [hverifs, List.map_append,
        find?_append_none _ _ _ (List.find?_eq_none.mpr ?_)]
      · simp
      · intro x hx
        rcases List.mem_map.mp hx with ⟨y, hy, rfl⟩
        by_cases hyid : y.id = verification_id <;>
          simp [hyid, hfresh y hy]
    exact hfail4_pair _ token now''
      { id := verification_id, identityId := identity_id,
        tokenHash := h token,
        expiresAt := now + cfg.emailVerifyTtlHours,
        usedAt := some now', createdAt := now } hfind2 (Or.inl (by simp))

def cfgOpen : AuthConfig :=
  { inviteOnly := false, inviteRequiredForLogin := false,
    inviteCodes := [], emailVerifyTtlHours := 24 }

def verW : EmailVerification :=
  { token := "tok", expiresAt := 24, email := "a@b.c" }

def db1W : DB :=
  (create_password_user cfgOpen hashId hashId dbEmpty "a@b.c" "password123"
    none none 0 "u1" "ai1" "ev1" "le1" "tok").2

/-- Witness for C2 at a concrete signup and token. -/
theorem create_then_verify_round_trip_witness :
    (verify_email_token hashId db1W "tok" 1).1 = some "u1" ∧
    (verify_email_token hashId (verify_email_token hashId db1W "tok" 1).2
      "tok" 2).1 = none := by
  have h := create_then_verify_round_trip cfgOpen hashId hashId dbEmpty
    "a@b.c" "password123" none none 0 "u1" "ai1" "ev1" "le1" "tok" verW db1W
    (by decide) (by decide) (by decide) (by decide) (by decide)
  obtain ⟨-, h2, -, -⟩ := h
  have h3 := h2 1 (by decide)
  refine ⟨h3.1, ?_⟩
  rw [h3.2 2]

/-! ### C10 and C8: `authenticate_password` events -/

def chkSample : String → String → Bool := fun hsh pw =>
  hsh == "H" && pw == "secret11"

/-- C10: with an empty normalized email or an empty password,
`authenticate_password` raises `InvalidCredentialsError` before touching the
database: even the in-transaction state is unchanged, so in particular no
`LoginEvent` row is recorded. -/
theorem authenticate_password_empty_input (chk : String → String → Bool)
    (db : DB) (email password event_id : String) (now : Int)
    (h : normalize_email email = "" ∨ password = "") :
    authenticate_password_body chk db email password event_id now =
      (.error (.invalidCredentials "Invalid email or password."), db) := by
  simp only [authenticate_password_body]
  rw [if_pos h]

/-- Witness for C10 at an empty email. -/
theorem authenticate_password_empty_input_witness :
    authenticate_password_body chkSample dbEmpty "" "pw12345678" "le1" 0 =
      (.error (.invalidCredentials "Invalid email or password."), dbEmpty) :=
  authenticate_password_empty_input chkSample dbEmpty "" "pw12345678" "le1" 0
    (Or.inl (by decide))

def userC8 : UserRow :=
  { id := "u1", primaryEmail := some "x@y.z", displayName := none,
    avatarUrl := none, createdAt := 0, lastLoginAt := none, isActive := true }

def identityC8 : IdentityRow :=
  { id := "ai1", userId := "u1", provider := "password",
    providerSub := "x@y.z", email := some "x@y.z",
    passwordHash := some "H", emailVerified := true, createdAt := 0,
    lastUsedAt := none }

def dbC8 : DB :=
  { users := [userC8], identities := [identityC8], profiles := [],
    verifications := [], loginEvents := [], invites := [],
    inviteUsages := [] }

/-- C8: a failed `authenticate_password` attempt persists no `LoginEvent`
row — the `invalid_credentials` insert made by the transaction body is
rolled back when the exception leaves the connection context manager — while
a successful attempt persists exactly one row with reason `login`.  This
contradicts the claim (and the spec), which promise exactly one persisted
row with reason `invalid_credentials`/`email_not_verified` for failed
attempts too. -/
theorem authenticate_password_failure_event_rolled_back :
    (authenticate_password chkSample dbC8 "x@y.z" "wrong" "le1" 0).1 =
      .error (.invalidCredentials "Invalid email or password.") ∧
    (authenticate_password chkSample dbC8 "x@y.z" "wrong" "le1" 0).2.loginEvents
      = [] ∧
    (authenticate_password_body chkSample dbC8 "x@y.z" "wrong" "le1"
      0).2.loginEvents.map (fun e => e.reason) =
      [some "invalid_credentials"] ∧
    (authenticate_password chkSample dbC8 "x@y.z" "secret11" "le1"
      0).2.loginEvents.map (fun e => e.reason) = [some "login"] := by
  refine ⟨rfl, rfl, rfl, rfl⟩

/-! ### C3: Google identity linking -/

def userC3 : UserRow :=
  { id := "u1", primaryEmail := some "a@b.c", displayName := none,
    avatarUrl := none, createdAt := 0, lastLoginAt := none, isActive := true }

def dbC3 : DB :=
  { users := [userC3], identities := [], profiles := [], verifications := [],
    loginEvents := [], invites := [], inviteUsages := [] }

def gidsC3 : GoogleIds :=
  { linkIdentityId := "gl1", newUserId := "nu1", newIdentityId := "ni1",
    eventId := "le1" }

/-- C3, counterexample: with no existing google identity, a supplied email
matching an existing user, and `email_verified` not asserted true, the call
does not create a fresh user when invite gating rejects the signup — it
fails with `InviteRequiredError` and leaves the database unchanged. -/
theorem authenticate_google_unverified_gating_counterexample :
    authenticate_google cfgNoInvites hashId dbC3 "gsub" (some "a@b.c") none
      none (some false) none gidsC3 0 =
      (.error (.inviteRequired "Invite code is required."), dbC3) := by
  rfl

theorem google_link_user_row_mem {db : DB} {en : String} {u : UserRow}
    (h : google_link_user_row db en = some u) : u ∈ db.users := by
  unfold google_link_user_row at h
  cases h1 : db.users.find? fun w => w.primaryEmail = some en with
  | some w =>
    rw [h1] at h
    injection h with h
    subst h
    exact List.mem_of_find?_eq_some h1
  | none =>
    rw [h1] at h
    cases h2 : db.identities.find? fun ai => ai.email = some en with
    | none =>
      rw [h2] at h
      cases h
    | some ai =>
      rw [h2] at h
      exact List.mem_of_find?_eq_some h

/-- The user row the signup branch of `authenticate_google` inserts. -/
def googleNewUserRow (ids : GoogleIds)
    (email_norm display_name avatar_url : Option String) (now : Int) :
    UserRow :=
  { id := ids.newUserId, primaryEmail := email_norm,
    displayName := strip_or_none display_name, avatarUrl := avatar_url,
    createdAt := now, lastLoginAt := some now, isActive := true }

/-- The google identity row the signup branch of `authenticate_google`
inserts. -/
def googleNewIdentityRow (ids : GoogleIds) (google_sub : String)
    (email_norm : Option String) (email_verified : Option Bool) (now : Int) :
    IdentityRow :=
  { id := ids.newIdentityId, userId := ids.newUserId, provider := "google",
    providerSub := google_sub, email := email_norm, passwordHash := none,
    emailVerified := (email_verified = some true), createdAt := now,
    lastUsedAt := some now }

/-- C3 (amended): for a call whose `google_sub` has no existing google
identity and whose supplied email matches an existing user (by
`primary_email`, falling back to any identity's email): if the caller
asserts `email_verified=true`, the call returns that user's id, attaches a
new google identity owned by that user, and creates no user row; if the
caller does not assert `email_verified=true`, the call never links — every
identity it adds belongs to the fresh user id, and when it succeeds (invite
gating permitting; with an invalid gate it fails without creating anything,
the one amendment) it returns a fresh `User` whose id is the new distinct
uuid, adding exactly that user row. -/
theorem authenticate_google_email_linking
    (cfg : AuthConfig) (h : String → String) (db : DB) (google_sub : String)
    (em : String) (display_name avatar_url : Option String)
    (email_verified : Option Bool) (invite_code : Option String)
    (ids : GoogleIds) (now : Int)
    (hsub : google_sub ≠ "") (hemne : em ≠ "")
    (hennz : normalize_email em ≠ "")
    (hnog : db.identities.find? (fun ai =>
      ai.provider = "google" ∧ ai.providerSub = google_sub) = none)
    (u : UserRow)
    (hmatch : google_link_user_row db (normalize_email em) = some u)
    (hfreshid : ∀ w ∈ db.users, w.id ≠ ids.newUserId) :
    (email_verified = some true →
      (authenticate_google cfg h db google_sub (some em) display_name
        avatar_url email_verified invite_code ids now).1 =
          .ok (row_to_user u) ∧
      (authenticate_google cfg h db google_sub (some em) display_name
        avatar_url email_verified invite_code ids now).2.identities =
        db.identities ++
          [{ id := ids.linkIdentityId, userId := u.id, provider := "google",
             providerSub := google_sub, email := some (normalize_email em),
             passwordHash := none, emailVerified := true, createdAt := now,
             lastUsedAt := some now }] ∧
      (authenticate_google cfg h db google_sub (some em) display_name
        avatar_url email_verified invite_code ids now).2.users.map
          (fun w => w.id) = db.users.map fun w => w.id) ∧
    (email_verified ≠ some true →
      (∀ r, (authenticate_google cfg h db google_sub (some em) display_name
        avatar_url email_verified invite_code ids now).1 = .ok r →
        r.id = ids.newUserId ∧ r.id ≠ u.id) ∧
      (∀ ai ∈ (authenticate_google cfg h db google_sub (some em) display_name
        avatar_url email_verified invite_code ids now).2.identities,
        ai ∉ db.identities → ai.userId = ids.newUserId) ∧
      (∀ r, (authenticate_google cfg h db google_sub (some em) display_name
        avatar_url email_verified invite_code ids now).1 = .ok r →
        (authenticate_google cfg h db google_sub (some em) display_name
          avatar_url email_verified invite_code ids now).2.users.map
            (fun w => w.id) =
          (db.users.map fun w => w.id) ++ [ids.newUserId])) := by
  have hstep : authenticate_google cfg h db google_sub (some em) display_name
      avatar_url email_verified invite_code ids now =
      (if email_verified = some true then
        (.ok (row_to_user u),
         record_login_event
           (ensure_profile_row
             { db with
               identities := db.identities ++
                 [{ id := ids.linkIdentityId, userId := u.id,
                    provider := "google", providerSub := google_sub,
                    email := some (normalize_email em), passwordHash := none,
                    emailVerified := true, createdAt := now,
                    lastUsedAt := some now }],
               users := db.users.map fun (w : UserRow) =>
                 if w.id = u.id then
                   { w with
                     displayName := strip_or_none display_name <|> w.displayName,
                     avatarUrl := avatar_url <|> w.avatarUrl,
                     lastLoginAt := some now }
                 else w }
             u.id now)
           ids.eventId (some u.id) (some "google")
           (some (normalize_email em)) true (some "link_and_login") now)
      else
        authenticate_google_signup cfg h db google_sub
          (some (normalize_email em)) display_name avatar_url email_verified
          invite_code ids now) := by
    simp only [authenticate_google]
    rw [if_neg hsub]
    simp only [if_neg hemne, hnog, if_neg hennz, hmatch]
  constructor
  · intro hv
    rw [hstep, if_pos hv]
    refine ⟨rfl, ?_, ?_⟩
    · simp [record_login_event]
    · simp [record_login_event]
      intro w hw
      by_cases hww : w.id = u.id <;> simp [hww]
  · intro hv
    rw [hstep, if_neg hv]
    have humem : u ∈ db.users := google_link_user_row_mem hmatch
    cases hval : validate_invite_for_signup cfg h db invite_code
        (some (normalize_email em)) now with
    | error e =>
      have hsig : authenticate_google_signup cfg h db google_sub
          (some (normalize_email em)) display_name avatar_url email_verified
          invite_code ids now = (.error e, db) := by
        simp only [authenticate_google_signup, hval]
      refine ⟨fun r hr => ?_, fun ai hai hnew => ?_, fun r hr => ?_⟩
      · rw [hsig] at hr
        cases hr
      · rw [hsig] at hai
        exact absurd hai hnew
      · rw [hsig] at hr
        cases hr
    | ok v =>
      have hfindnew : (db.users ++
          [googleNewUserRow ids (some (normalize_email em)) display_name
            avatar_url now]).find?
          (fun (w : UserRow) => w.id = ids.newUserId) =
          some (googleNewUserRow ids (some (normalize_email em)) display_name
            avatar_url now) := by
        rw [find?_append_none _ _ _ (List.find?_eq_none.mpr
          (fun w hw => by simp [hfreshid w hw]))]
        simp [googleNewUserRow]
      have hfst : (authenticate_google_signup cfg h db google_sub
          (some (normalize_email em)) display_name avatar_url email_verified
          invite_code ids now).1 =
          .ok (row_to_user (googleNewUserRow ids (some (normalize_email em))
            display_name avatar_url now)) := by
        simp only [authenticate_google_signup, hval, record_login_event,
          ensure_profile_row_users, googleNewUserRow] at hfindnew ⊢
        simp only [hfindnew]
      have hidm : (authenticate_google_signup cfg h db google_sub
          (some (normalize_email em)) display_name avatar_url email_verified
          invite_code ids now).2.identities = db.identities ++
          [googleNewIdentityRow ids google_sub (some (normalize_email em))
            email_verified now] := by
        simp only [authenticate_google_signup, hval, record_login_event,
          ensure_profile_row_users, ensure_profile_row_identities,
          googleNewUserRow, googleNewIdentityRow] at hfindnew ⊢
        simp only [hfindnew]
      have husers : (authenticate_google_signup cfg h db google_sub
          (some (normalize_email em)) display_name avatar_url email_verified
          invite_code ids now).2.users = db.users ++
          [googleNewUserRow ids (some (normalize_email em)) display_name
            avatar_url now] := by
        simp only [authenticate_google_signup, hval, record_login_event,
          ensure_profile_row_users, googleNewUserRow] at hfindnew ⊢
        simp only [hfindnew]
      refine ⟨fun r hr => ?_, fun ai hai hnew => ?_, fun r hr => ?_⟩
      · rw [hfst] at hr
        simp only [Except.ok.injEq] at hr
        subst hr
        refine ⟨rfl, fun hc => hfreshid u humem ?_⟩
        simpa [row_to_user, googleNewUserRow] using hc.symm
      · rw [hidm] at hai
        rcases List.mem_append.mp hai with hold | hnw
        · exact absurd hold hnew
        · rcases List.mem_singleton.mp hnw with rfl
          rfl
      · rw [husers]
        simp [googleNewUserRow]

/-- Witness for C3: a verified-email Google login against a database holding
one password-less user with that primary email links and returns that
user. -/
theorem authenticate_google_email_linking_witness :
    (authenticate_google cfgNoInvites hashId dbC3 "gsub" (some "a@b.c") none
      none (some true) none gidsC3 0).1 = .ok (row_to_user userC3) := by
  have h := authenticate_google_email_linking cfgNoInvites hashId dbC3 "gsub"
    "a@b.c" none none (some true) none gidsC3 0 (by decide) (by decide)
    (by decide) (by decide) userC3 (by decide) (by decide)
  exact (h.1 rfl).1

end Connact
